import Mathlib

/-!
Shallow embedding of the credo.cache Redis cache adapter.

The adapter (src/index.ts, compiled as src/bin/index.js) wraps a Redis
client connection behind get / set / clear / execute operations with JSON
serialization and structured error reporting.  The Redis client and the
JSON codec are external collaborators: the client is modelled by feeding
each operation the reply its callback would receive, and JSON.parse /
JSON.stringify are abstract parameters (`parse : String → Option α`,
`stringify : α → String`), where `parse s = none` models a JSON.parse call
that throws.  Each operation is split into the synchronous argument-check
phase (which either throws a TypeError, modelled as `Except.error` with
the TypeError message, or issues exactly one client command) and the pure
completion function applied to the client reply (which resolves, rejects,
emits an error event, or logs, exactly as the callback body does).
-/

namespace Credo

/-- Shape of a low-level JavaScript error object as inspected by the
adapter: only the optional `code` and `command` string fields are ever
consulted (bin/index.js error handler and the default retry strategy). -/
structure JsError where
  code : Option String
  command : Option String
deriving Repr, DecidableEq

/-- Typed cache error (class CacheError extends nova.Exception): carries
the original cause and a human-readable message. -/
structure CacheError where
  cause : JsError
  message : String
deriving Repr, DecidableEq

/-- Outcome of a promise-returning operation: resolve with a value or
with undefined (`Option α`), or reject with a typed cache error. -/
inductive Outcome (α : Type) where
  | resolve : Option α → Outcome α
  | reject : CacheError → Outcome α
deriving Repr, DecidableEq

/-- Result of running a callback body: the promise outcome together with
the warning messages logged by the callback. -/
structure Completion (α : Type) where
  outcome : Outcome α
  warnings : List String
deriving Repr, DecidableEq

/-- Fetch command issued by `get`: a single-key GET or a batched MGET. -/
inductive FetchCmd where
  | getCmd : String → FetchCmd
  | mgetCmd : List String → FetchCmd
deriving Repr, DecidableEq

/-- Store command issued by `set`: plain SET key value, or SETEX key
expires value. -/
inductive SetCmd where
  | set : String → String → SetCmd
  | setex : String → Nat → String → SetCmd
deriving Repr, DecidableEq

/-- One positional argument of the client.eval call: a string or a
number. -/
inductive EvalArg where
  | str : String → EvalArg
  | num : Nat → EvalArg
deriving Repr, DecidableEq

/-- The `keyOrKeys` argument of `get` / `clear`: undefined, a single
string, or an array of strings. -/
inductive KeysArg where
  | undef : KeysArg
  | str : String → KeysArg
  | arr : List String → KeysArg
deriving Repr, DecidableEq

/-- JavaScript truthiness test used by the `if (!keyOrKeys)` guards:
undefined and the empty string are falsy; every array is truthy. -/
def keysArgFalsy : KeysArg → Bool
  | .undef => true
  | .str s => s == ""
  | .arr _ => false

/-- Cache.get argument phase (src/index.ts line 266): throw a TypeError
when the argument is falsy, else dispatch on Array.isArray to the batched
or the single-key fetch. -/
def cacheGet (arg : KeysArg) : Except String FetchCmd :=
  if keysArgFalsy arg then .error "Cannot get values from cache: keys are undefined"
  else
    match arg with
    | .arr keys => .ok (.mgetCmd keys)
    | .str key => .ok (.getCmd key)
    | .undef => .error "Cannot get values from cache: keys are undefined"

/-- Cache.clear argument phase (src/index.ts line 324): throw a TypeError
when the argument is falsy, else normalize to an array and issue one DEL
command carrying that key list. -/
def cacheClear (arg : KeysArg) : Except String (List String) :=
  if keysArgFalsy arg then .error "Cannot clear cache keys: keys are undefined"
  else
    match arg with
    | .arr keys => .ok keys
    | .str key => .ok [key]
    | .undef => .error "Cannot clear cache keys: keys are undefined"

/-- JavaScript truthiness of the optional numeric `expires` argument:
undefined and 0 are falsy. -/
def expiresTruthy : Option Nat → Bool
  | none => false
  | some e => e != 0

/-- Cache.set argument phase (src/index.ts line 271): throw a TypeError
when the key is falsy, else JSON.stringify the value and issue SETEX when
`expires` is truthy, plain SET otherwise.  The function returns nothing
to the caller beyond the issued command (fire and forget). -/
def cacheSet {α : Type} (stringify : α → String) (key : Option String)
    (value : α) (expires : Option Nat) : Except String SetCmd :=
  match key with
  | none => .error "Cannot set cache key: key is undefined"
  | some k =>
    if k == "" then .error "Cannot set cache key: key is undefined"
    else
      let stringValue := stringify value
      match expires with
      | some e =>
        if e != 0 then .ok (.setex k e stringValue)
        else .ok (.set k stringValue)
      | none => .ok (.set k stringValue)

/-- Cache.execute argument phase (src/index.ts line 298): throw a
TypeError when the script is falsy, else call client.eval with the
script, then keys.length, then the spread keys, then the spread
parameters, in that order. -/
def cacheExecute (script : String) (keys : List String)
    (parameters : List String) : Except String (List EvalArg) :=
  if script == "" then .error "Cannot execute cache script: script is undefined"
  else .ok ([EvalArg.str script, EvalArg.num keys.length]
    ++ keys.map EvalArg.str ++ parameters.map EvalArg.str)

/-- Callback body of the single-key get (src/index.ts line 348): reject
on a client error; otherwise `var value = result ? JSON.parse(result) :
undefined` inside try/catch, logging a warning and leaving `value`
undefined when JSON.parse throws; resolve with `value`.  The client reply
is `none` for a nil reply and `some s` for a raw string reply. -/
def getOneComplete {α : Type} (parse : String → Option α)
    (reply : Except JsError (Option String)) : Completion α :=
  match reply with
  | .error e => ⟨.reject ⟨e, "Failed to retrieve a value from cache"⟩, []⟩
  | .ok result =>
    match result with
    | none => ⟨.resolve none, []⟩
    | some s =>
      if s == "" then ⟨.resolve none, []⟩
      else
        match parse s with
        | some v => ⟨.resolve (some v), []⟩
        | none => ⟨.resolve none, ["Failed to deserialize cache value " ++ s]⟩

/-- Deserialization loop of the batched get (src/index.ts lines 380-388):
`values.push(result ? JSON.parse(result) : undefined)` inside try/catch.
The push argument is evaluated before push runs, so when JSON.parse
throws nothing is pushed for that entry: the entry is dropped and the
loop continues with the next one. -/
def getAllValues {α : Type} (parse : String → Option α) :
    List (Option String) → List (Option α)
  | [] => []
  | result :: rest =>
    match result with
    | none => none :: getAllValues parse rest
    | some s =>
      if s == "" then none :: getAllValues parse rest
      else
        match parse s with
        | some v => some v :: getAllValues parse rest
        | none => getAllValues parse rest

/-- Callback body of the batched get (src/index.ts line 373): reject on a
client error with the batched-get message, else resolve with the list
built by the deserialization loop. -/
def getAllComplete {α : Type} (parse : String → Option α)
    (reply : Except JsError (List (Option String))) :
    Except CacheError (List (Option α)) :=
  match reply with
  | .error e => .error ⟨e, "Failed to retrieve values from cache"⟩
  | .ok results => .ok (getAllValues parse results)

/-- Callback body of client.eval inside execute (src/index.ts line 305):
reject on a client error with the script message; otherwise the same
`result ? JSON.parse(result) : undefined` pattern as the single-key get,
with a warning logged when JSON.parse throws. -/
def executeComplete {α : Type} (parse : String → Option α)
    (reply : Except JsError (Option String)) : Completion α :=
  match reply with
  | .error e => ⟨.reject ⟨e, "Failed to execute cache script"⟩, []⟩
  | .ok result =>
    match result with
    | none => ⟨.resolve none, []⟩
    | some s =>
      if s == "" then ⟨.resolve none, []⟩
      else
        match parse s with
        | some v => ⟨.resolve (some v), []⟩
        | none => ⟨.resolve none, ["Failed to deserialize cache value " ++ s]⟩

/-- Callback body of client.setex and client.set inside Cache.set
(src/index.ts lines 281-295): on a client error, emit a CacheError on
the error event channel; the emitted error is returned as `some`, and
`none` means nothing is emitted.  The message string is the literal from
the source. -/
def setCallbackEmit (error : Option JsError) : Option CacheError :=
  match error with
  | some e => some ⟨e, "Failed to clear cache items"⟩
  | none => none

/-- Callback body of client.del inside Cache.clear (src/index.ts lines
332-337): on a client error, emit a CacheError on the error event
channel. -/
def clearCallbackEmit (error : Option JsError) : Option CacheError :=
  match error with
  | some e => some ⟨e, "Failed to clear cache items"⟩
  | none => none

/-- Action of the client error listener installed by the constructor. -/
inductive ErrorAction where
  | suppress : ErrorAction
  | emit : CacheError → ErrorAction
deriving Repr, DecidableEq

/-- Client error listener from the constructor in src/bin/index.js lines
31-39 (the latest recorded build): an error whose command is AUTH and
whose code is UNCERTAIN_STATE is only logged as a warning; every other
error is wrapped into a CacheError and emitted on the error channel. -/
def onClientError (error : JsError) : ErrorAction :=
  if error.command == some "AUTH" && error.code == some "UNCERTAIN_STATE" then
    .suppress
  else
    .emit ⟨error, "Cache error"⟩

/-- Decision of a retry strategy: a millisecond delay before the next
attempt, or a terminal Error carrying a message. -/
inductive RetryDecision where
  | delay : Nat → RetryDecision
  | fail : String → RetryDecision
deriving Repr, DecidableEq

/-- The options object passed to a retry strategy by the redis client. -/
structure ConnectionRetryOptions where
  error : Option JsError
  attempt : Nat
  total_retry_time : Nat
  times_connected : Nat
deriving Repr, DecidableEq

/-- MAX_RETRY_TIME from src/index.ts line 211 (one minute). -/
def MAX_RETRY_TIME : Nat := 60000

/-- MAX_RETRY_INTERVAL from src/index.ts line 212 (three seconds). -/
def MAX_RETRY_INTERVAL : Nat := 3000

/-- RETRY_INTERVAL_STEP from src/index.ts line 213 (200 milliseconds). -/
def RETRY_INTERVAL_STEP : Nat := 200

/-- JavaScript test `options.error && options.error.code ===
'ECONNREFUSED'`. -/
def isConnRefused : Option JsError → Bool
  | none => false
  | some e => e.code == some "ECONNREFUSED"

/-- Default retry strategy installed by prepareRedisOptions (src/index.ts
lines 404-414): terminal error on active refusal; terminal error once the
total retry time exceeds MAX_RETRY_TIME; otherwise a delay of
min(attempt * RETRY_INTERVAL_STEP, MAX_RETRY_INTERVAL). -/
def defaultRetryStrategy (options : ConnectionRetryOptions) : RetryDecision :=
  if isConnRefused options.error then
    .fail "The server refused the connection"
  else if MAX_RETRY_TIME < options.total_retry_time then
    .fail "Retry time exhausted"
  else
    .delay (min (options.attempt * RETRY_INTERVAL_STEP) MAX_RETRY_INTERVAL)

/-- Redis connection configuration (src/index.ts lines 217-223).  The
source field named after the key-namespace prefix option is spelled
keyNamespace here because its source spelling is reserved in Lean. -/
structure RedisConnectionConfig where
  host : String
  port : Nat
  password : String
  keyNamespace : Option String
  retry_strategy : Option (ConnectionRetryOptions → RetryDecision)

/-- prepareRedisOptions (src/index.ts lines 399-418): when no retry
strategy is supplied, return a copy of the options with the default
strategy installed; otherwise return the options unchanged. -/
def prepareRedisOptions (options : RedisConnectionConfig) : RedisConnectionConfig :=
  match options.retry_strategy with
  | some _ => options
  | none => { options with retry_strategy := some defaultRetryStrategy }

/-- Concrete deserializer used to instantiate the abstract JSON parse
parameter in closed statements; it agrees with JSON.parse on every string
it is applied to below (the literals of small numerals parse to those
numerals, and the other strings make JSON.parse throw). -/
def parseNatLit : String → Option Nat
  | "1" => some 1
  | "7" => some 7
  | "42" => some 42
  | _ => none


/-- Claim C3: for a non-empty key the single-key get issues one GET
command; a client error rejects with a CacheError whose cause is that
error and whose message is the retrieve-one message; a nil reply resolves
with undefined; a parsed raw reply resolves with the parsed value; and a
raw reply on which JSON.parse throws logs a warning and resolves with
undefined instead of rejecting.  A raw value here is a truthy (non-empty)
reply string, matching the truthiness test the source applies before
parsing. -/
theorem getOne_contract :
    (∀ k : String, k ≠ "" → cacheGet (.str k) = .ok (.getCmd k)) ∧
    (∀ (α : Type) (parse : String → Option α) (e : JsError),
      getOneComplete parse (.error e) =
        ⟨.reject ⟨e, "Failed to retrieve a value from cache"⟩, []⟩) ∧
    (∀ (α : Type) (parse : String → Option α),
      getOneComplete parse (.ok none) = ⟨.resolve none, []⟩) ∧
    (∀ (α : Type) (parse : String → Option α) (s : String) (v : α),
      s ≠ "" → parse s = some v →
      getOneComplete parse (.ok (some s)) = ⟨.resolve (some v), []⟩) ∧
    (∀ (α : Type) (parse : String → Option α) (s : String),
      s ≠ "" → parse s = none →
      getOneComplete parse (.ok (some s)) =
        ⟨.resolve none, ["Failed to deserialize cache value " ++ s]⟩) := by
  refine ⟨?_, ?_, ?_, ?_, ?_⟩
  · intro k hk
    simp [cacheGet, keysArgFalsy, hk]
  · intro α parse e; rfl
  · intro α parse; rfl
  · intro α parse s v hs hp
    simp [getOneComplete, hs, hp]
  · intro α parse s hs hp
    simp [getOneComplete, hs, hp]

/-- Witness for getOne_contract at concrete inputs. -/
theorem getOne_contract_witness :
    cacheGet (.str "key1") = .ok (.getCmd "key1") ∧
    getOneComplete parseNatLit (.ok (some "42")) = ⟨.resolve (some 42), []⟩ ∧
    getOneComplete parseNatLit (.ok (some "zzz")) =
      ⟨.resolve none, ["Failed to deserialize cache value " ++ "zzz"]⟩ :=
  ⟨getOne_contract.1 "key1" (by decide),
   getOne_contract.2.2.2.1 Nat parseNatLit "42" 42 (by decide) (by rfl),
   getOne_contract.2.2.2.2 Nat parseNatLit "zzz" (by decide) (by rfl)⟩

/-- Claim C4: when no retry strategy is supplied, construction installs
the default strategy, and when one is supplied the options are returned
unchanged; the default strategy fails terminally on an error whose code
is ECONNREFUSED, fails terminally once the total retry time exceeds
60000 ms, and otherwise delays min(attempt * 200, 3000) milliseconds. -/
theorem default_reconnect_policy_contract :
    (∀ cfg : RedisConnectionConfig, cfg.retry_strategy = none →
      (prepareRedisOptions cfg).retry_strategy = some defaultRetryStrategy) ∧
    (∀ (cfg : RedisConnectionConfig) (f : ConnectionRetryOptions → RetryDecision),
      cfg.retry_strategy = some f → prepareRedisOptions cfg = cfg) ∧
    (∀ o : ConnectionRetryOptions, isConnRefused o.error = true →
      defaultRetryStrategy o = .fail "The server refused the connection") ∧
    (∀ o : ConnectionRetryOptions, isConnRefused o.error = false →
      60000 < o.total_retry_time →
      defaultRetryStrategy o = .fail "Retry time exhausted") ∧
    (∀ o : ConnectionRetryOptions, isConnRefused o.error = false →
      o.total_retry_time ≤ 60000 →
      defaultRetryStrategy o = .delay (min (o.attempt * 200) 3000)) := by
  refine ⟨?_, ?_, ?_, ?_, ?_⟩
  · intro cfg h; simp [prepareRedisOptions, h]
  · intro cfg f h; simp [prepareRedisOptions, h]
  · intro o h; simp [defaultRetryStrategy, h]
  · intro o h1 h2
    simp [defaultRetryStrategy, h1, MAX_RETRY_TIME, h2]
  · intro o h1 h2
    simp [defaultRetryStrategy, h1, MAX_RETRY_TIME, RETRY_INTERVAL_STEP,
      MAX_RETRY_INTERVAL, Nat.not_lt.mpr h2]

/-- Witness for default_reconnect_policy_contract at concrete inputs. -/
theorem default_reconnect_policy_witness :
    defaultRetryStrategy ⟨none, 20, 1000, 0⟩ = .delay 3000 ∧
    defaultRetryStrategy ⟨some ⟨some "ECONNREFUSED", none⟩, 1, 0, 0⟩ =
      .fail "The server refused the connection" ∧
    defaultRetryStrategy ⟨none, 3, 70000, 1⟩ = .fail "Retry time exhausted" :=
  ⟨default_reconnect_policy_contract.2.2.2.2 ⟨none, 20, 1000, 0⟩ rfl (by decide),
   default_reconnect_policy_contract.2.2.1 ⟨some ⟨some "ECONNREFUSED", none⟩, 1, 0, 0⟩ (by decide),
   default_reconnect_policy_contract.2.2.2.1 ⟨none, 3, 70000, 1⟩ rfl (by decide)⟩

/-- Claim C5: a client error whose command is AUTH and whose code is
UNCERTAIN_STATE is suppressed by the listener installed in the
constructor (src/bin/index.js) and never emitted on the error channel,
only logged as a warning; every other client error is wrapped into a
CacheError with message Cache error and emitted. -/
theorem client_error_suppression_contract :
    (∀ e : JsError, e.command = some "AUTH" → e.code = some "UNCERTAIN_STATE" →
      onClientError e = .suppress) ∧
    (∀ e : JsError, ¬(e.command = some "AUTH" ∧ e.code = some "UNCERTAIN_STATE") →
      onClientError e = .emit ⟨e, "Cache error"⟩) := by
  constructor
  · intro e h1 h2; simp [onClientError, h1, h2]
  · intro e h
    rw [not_and_or] at h
    rcases h with h | h <;> simp [onClientError, h]

/-- Witness for client_error_suppression_contract at concrete errors. -/
theorem client_error_suppression_witness :
    onClientError ⟨some "UNCERTAIN_STATE", some "AUTH"⟩ = .suppress ∧
    onClientError ⟨some "ECONNRESET", none⟩ =
      .emit ⟨⟨some "ECONNRESET", none⟩, "Cache error"⟩ :=
  ⟨client_error_suppression_contract.1 ⟨some "UNCERTAIN_STATE", some "AUTH"⟩ rfl rfl,
   client_error_suppression_contract.2 ⟨some "ECONNRESET", none⟩ (by decide)⟩

/-- Claim C6: get with an undefined argument, set with an undefined key,
clear with an undefined argument, and execute with an empty script each
throw a synchronous TypeError at call time, returning the plain TypeError
message with no command issued, so no store interaction, no CacheError
wrapping, no rejected promise, and no error event can follow. -/
theorem precondition_throws_contract :
    cacheGet .undef = .error "Cannot get values from cache: keys are undefined" ∧
    (∀ (α : Type) (stringify : α → String) (v : α) (e : Option Nat),
      cacheSet stringify none v e = .error "Cannot set cache key: key is undefined") ∧
    cacheClear .undef = .error "Cannot clear cache keys: keys are undefined" ∧
    (∀ keys parameters : List String,
      cacheExecute "" keys parameters =
        .error "Cannot execute cache script: script is undefined") := by
  refine ⟨rfl, ?_, rfl, ?_⟩
  · intro α stringify v e; rfl
  · intro keys parameters; rfl

/-- Claim C7: for a non-empty script, execute calls client.eval with the
script, then the count of key arguments, then the keys, then the
parameters, in exactly that order; a client error rejects with a
CacheError carrying the script message; a returned raw result resolves
with its parsed value, and an absent, empty, or unparseable result
resolves with undefined. -/
theorem execute_contract :
    (∀ (script : String) (keys parameters : List String), script ≠ "" →
      cacheExecute script keys parameters =
        .ok ([EvalArg.str script, EvalArg.num keys.length]
          ++ keys.map EvalArg.str ++ parameters.map EvalArg.str)) ∧
    (∀ (α : Type) (parse : String → Option α) (e : JsError),
      executeComplete parse (.error e) =
        ⟨.reject ⟨e, "Failed to execute cache script"⟩, []⟩) ∧
    (∀ (α : Type) (parse : String → Option α),
      executeComplete parse (.ok none) = ⟨.resolve none, []⟩) ∧
    (∀ (α : Type) (parse : String → Option α),
      executeComplete parse (.ok (some "")) = ⟨.resolve none, []⟩) ∧
    (∀ (α : Type) (parse : String → Option α) (s : String) (v : α),
      s ≠ "" → parse s = some v →
      executeComplete parse (.ok (some s)) = ⟨.resolve (some v), []⟩) ∧
    (∀ (α : Type) (parse : String → Option α) (s : String),
      s ≠ "" → parse s = none →
      executeComplete parse (.ok (some s)) =
        ⟨.resolve none, ["Failed to deserialize cache value " ++ s]⟩) := by
  refine ⟨?_, ?_, ?_, ?_, ?_, ?_⟩
  · intro script keys parameters h
    simp [cacheExecute, h]
  · intro α parse e; rfl
  · intro α parse; rfl
  · intro α parse; rfl
  · intro α parse s v hs hp
    simp [executeComplete, hs, hp]
  · intro α parse s hs hp
    simp [executeComplete, hs, hp]

/-- Witness for execute_contract at concrete inputs. -/
theorem execute_contract_witness :
    cacheExecute "return 1" ["k1", "k2"] ["p1"] =
      .ok [.str "return 1", .num 2, .str "k1", .str "k2", .str "p1"] ∧
    executeComplete parseNatLit (.ok (some "7")) = ⟨.resolve (some 7), []⟩ :=
  ⟨execute_contract.1 "return 1" ["k1", "k2"] ["p1"] (by decide),
   execute_contract.2.2.2.2.1 Nat parseNatLit "7" 7 (by decide) (by rfl)⟩

/-- Claim C8: for a non-empty key, set serializes the value with
JSON.stringify and issues exactly one command: SETEX carrying the
expiration when expires is provided and truthy, and plain SET when
expires is absent or zero; the operation returns no promise, only the
issued command. -/
theorem set_command_contract :
    (∀ (α : Type) (stringify : α → String) (k : String) (v : α) (e : Nat),
      k ≠ "" → e ≠ 0 →
      cacheSet stringify (some k) v (some e) = .ok (.setex k e (stringify v))) ∧
    (∀ (α : Type) (stringify : α → String) (k : String) (v : α),
      k ≠ "" →
      cacheSet stringify (some k) v none = .ok (.set k (stringify v))) ∧
    (∀ (α : Type) (stringify : α → String) (k : String) (v : α),
      k ≠ "" →
      cacheSet stringify (some k) v (some 0) = .ok (.set k (stringify v))) := by
  refine ⟨?_, ?_, ?_⟩
  · intro α stringify k v e hk he
    simp [cacheSet, hk, he]
  · intro α stringify k v hk
    simp [cacheSet, hk]
  · intro α stringify k v hk
    simp [cacheSet, hk]

/-- Witness for set_command_contract at concrete inputs. -/
theorem set_command_contract_witness :
    cacheSet (fun n : Nat => toString n) (some "key1") 42 (some 60) =
      .ok (.setex "key1" 60 "42") ∧
    cacheSet (fun n : Nat => toString n) (some "key1") 42 none =
      .ok (.set "key1" "42") :=
  ⟨set_command_contract.1 Nat (fun n : Nat => toString n) "key1" 42 60
      (by decide) (by decide),
   set_command_contract.2.1 Nat (fun n : Nat => toString n) "key1" 42 (by decide)⟩

/-- Claim C9: the falsy-argument guard does not reject an empty array:
get applied to an empty array issues a batched MGET for zero keys rather
than throwing, and resolves with the empty sequence when the client
returns an empty reply list; clear applied to an empty array likewise
passes the guard and issues DEL with an empty key list. -/
theorem empty_array_keys_accepted :
    cacheGet (.arr []) = .ok (.mgetCmd []) ∧
    cacheClear (.arr []) = .ok [] ∧
    (∀ (α : Type) (parse : String → Option α),
      getAllComplete parse (.ok []) = .ok []) := by
  refine ⟨rfl, rfl, ?_⟩
  intro α parse; rfl

/-- Claim C10: a falsy raw reply, whether an absent entry or the empty
string, resolves to undefined without the JSON parse function ever being
consulted, in both the single-key and the batched get, so a stored raw
empty string is indistinguishable from an absent key at the adapter
interface. -/
theorem falsy_raw_resolves_undefined :
    (∀ (α : Type) (parse : String → Option α),
      getOneComplete parse (.ok (some "")) = ⟨.resolve none, []⟩ ∧
      getOneComplete parse (.ok (some "")) = getOneComplete parse (.ok none)) ∧
    (∀ (α : Type) (parse : String → Option α) (rest : List (Option String)),
      getAllValues parse (none :: rest) = none :: getAllValues parse rest ∧
      getAllValues parse (some "" :: rest) = none :: getAllValues parse rest) := by
  constructor
  · intro α parse
    exact ⟨rfl, rfl⟩
  · intro α parse rest
    exact ⟨rfl, rfl⟩

/-- Claim C1 fails on the code: in the batched get the push call sits
inside the try block with JSON.parse in its argument, so a raw value on
which JSON.parse throws pushes nothing, dropping that position and
shifting every later result left.  Here a two-key fetch whose first raw
result is not valid JSON (the deserializer returns none on the string zzz,
as JSON.parse throws there) and whose second raw result parses to 1
resolves with the one-element sequence holding 1, not with a two-element
sequence holding undefined then 1. -/
theorem getAll_parse_failure_drops_entry :
    getAllComplete parseNatLit (.ok [some "zzz", some "1"]) = .ok [some 1] ∧
    (getAllValues parseNatLit [some "zzz", some "1"]).length = 1 := by
  exact ⟨rfl, rfl⟩

/-- Claim C2 fails on the code for set: the error callbacks of both the
SETEX and the plain SET command wrap the client error into a CacheError
whose message is the clear-operation literal Failed to clear cache items,
copied from the clear callback, so a set failure is emitted with a
message describing the clear operation; the clear callback itself uses
the same literal, which is correct for clear. -/
theorem set_failure_emits_clear_message :
    setCallbackEmit (some ⟨some "ERR", none⟩) =
      some ⟨⟨some "ERR", none⟩, "Failed to clear cache items"⟩ ∧
    clearCallbackEmit (some ⟨some "ERR", none⟩) =
      some ⟨⟨some "ERR", none⟩, "Failed to clear cache items"⟩ ∧
    setCallbackEmit none = none := by
  exact ⟨rfl, rfl, rfl⟩

end Credo
